import Mathlib

/-!
Verification development for the DocumentMind document-summarization pipeline.

Python text values (`str`) are embedded as `List Char` (a Python string is a
sequence of code points); short status/mode literals stay as Lean `String`,
compared only for equality.  Fallible calls are embedded with `Except`:
the underlying summarization model (the HuggingFace pipeline object) becomes
a parameter `pl : List Char → Nat → Nat → Except (List Char) (List Char)`
mapping (text, max_length, min_length) to either a summary text or the
message of a raised exception.  The Django ORM state visible to the pipeline
(Document rows, Summary rows, the Celery queue) is embedded as an explicit
record `PipelineState` threaded through the orchestration functions.
-/

namespace DocumentMind

/-- Configuration values from summarizer_backend/settings.py
(MAX_EXTRACT_CHAR, AUTO_SUMMARY_MAX_CHAR and the four summary length bounds). -/
structure Config where
  MAX_EXTRACT_CHAR : Nat
  AUTO_SUMMARY_MAX_CHAR : Nat
  SUMMARY_SHORT_MAX_LEN : Nat
  SUMMARY_SHORT_MIN_LEN : Nat
  SUMMARY_DETAILED_MAX_LEN : Nat
  SUMMARY_DETAILED_MIN_LEN : Nat
deriving DecidableEq, Repr

/-- Python `str.strip()`: remove leading and trailing whitespace. -/
def pyStrip (s : List Char) : List Char :=
  ((s.dropWhile Char.isWhitespace).reverse.dropWhile Char.isWhitespace).reverse

/-- Python `str.split('.')`: split on every `'.'`, keeping empty segments. -/
def splitOnDot : List Char → List (List Char)
  | [] => [[]]
  | c :: rest =>
    if c = '.' then [] :: splitOnDot rest
    else
      match splitOnDot rest with
      | [] => [[c]]
      | h :: t => (c :: h) :: t

/-- Python `sep.join(xs)`. -/
def pyJoin (sep : List Char) (xs : List (List Char)) : List Char :=
  List.intercalate sep xs

/-- The dictionary returned by SummarizationService.summarize: each key is
present (`some`) or absent (`none`). -/
structure SummarizeResult where
  short_summary : Option (List Char)
  detailed_notes : Option (List Char)
deriving DecidableEq, Repr

/-- summarization/services.py, SummarizationService.summarize.
`pl` is the (lazily loaded) pipeline capability: given (text, max_length,
min_length) it returns the generated summary text or raises.  The second
component of the result counts how many times the model was invoked
(i.e. how many `pipeline(text, ...)` calls were made). -/
def summarize (pl : List Char → Nat → Nat → Except (List Char) (List Char))
    (cfg : Config) (text0 : List Char) (mode : String) :
    Except (List Char) (SummarizeResult × Nat) :=
  let text := pyStrip text0
  if text = [] then
    .ok ({ short_summary := some [], detailed_notes := some [] }, 0)
  else
    let r0 : SummarizeResult := { short_summary := none, detailed_notes := none }
    let step1 : Except (List Char) (SummarizeResult × Nat) :=
      if mode = "short" ∨ mode = "both" then
        match pl text cfg.SUMMARY_SHORT_MAX_LEN cfg.SUMMARY_SHORT_MIN_LEN with
        | .error e => .error e
        | .ok s => .ok ({ r0 with short_summary := some s }, 1)
      else .ok (r0, 0)
    match step1 with
    | .error e => .error e
    | .ok (r1, n1) =>
      let step2 : Except (List Char) (SummarizeResult × Nat) :=
        if mode = "detailed" ∨ mode = "both" then
          match pl text cfg.SUMMARY_DETAILED_MAX_LEN cfg.SUMMARY_DETAILED_MIN_LEN with
          | .error e => .error e
          | .ok d =>
            let sentences := ((splitOnDot d).map pyStrip).filter (fun seg => seg ≠ [])
            let bullets := ('-' :: ' ' :: []) ++ pyJoin ('\n' :: '-' :: ' ' :: []) sentences
            .ok ({ r1 with detailed_notes := some bullets }, n1 + 1)
        else .ok (r1, n1)
      match step2 with
      | .error e => .error e
      | .ok (r2, n2) =>
        let r3 := if mode = "short" then
            match r2.detailed_notes with
            | none => { r2 with detailed_notes := some [] }
            | some _ => r2
          else r2
        let r4 := if mode = "detailed" then
            match r3.short_summary with
            | none => { r3 with short_summary := some [] }
            | some _ => r3
          else r3
        .ok (r4, n2)

/-- documents/summary_service.py, generate_document_summaries: calls
summarize with mode 'both' and reads both fields with default ''. -/
def generate_document_summaries
    (pl : List Char → Nat → Nat → Except (List Char) (List Char))
    (cfg : Config) (text : List Char) : Except (List Char) (List Char × List Char) :=
  match summarize pl cfg text "both" with
  | .error e => .error e
  | .ok (r, _) => .ok (r.short_summary.getD [], r.detailed_notes.getD [])

/-- documents/extraction.py, extract_text lines 125-130: the post-processing
applied to every reader's output — strip, then hard-truncate to
MAX_EXTRACT_CHAR characters when longer. -/
def extract_text_post (cfg : Config) (raw : List Char) : List Char :=
  let text := pyStrip raw
  if text.length > cfg.MAX_EXTRACT_CHAR then text.take cfg.MAX_EXTRACT_CHAR else text

/-- The Python f-string `f'Generation failed: {e}'` written into
detailed_notes on a generation failure (views.py line 82 and
async_tasks.py line 36). -/
def generationFailedMsg (e : List Char) : List Char :=
  "Generation failed: ".data ++ e

/-- A Summary row (documents/models.py, class Summary): the text fields and
the status string, one of 'pending' / 'processing' / 'complete' / 'failed'. -/
structure SummaryRec where
  short_summary : List Char
  detailed_notes : List Char
  status : String
deriving DecidableEq, Repr

/-- The persistent state seen by the pipeline: Document rows (id,
text_content) in creation order, Summary rows (document_id, record) in
creation order, the Celery queue of enqueued document ids, and the next
auto-increment primary key. -/
structure PipelineState where
  nextId : Nat
  docs : List (Nat × List Char)
  summaries : List (Nat × SummaryRec)
  queue : List Nat
deriving DecidableEq, Repr

/-- Update the first Summary row for the given document (the row that
`doc.summaries.first()` returns) in place; `save()` of a fetched row. -/
def updateSummary : List (Nat × SummaryRec) → Nat → SummaryRec → List (Nat × SummaryRec)
  | [], _, _ => []
  | p :: rest, d, r => if p.1 = d then (d, r) :: rest else p :: updateSummary rest d r

/-- `doc.summaries.first()`: the Summary row for a document, if any. -/
def findSummary (st : PipelineState) (d : Nat) : Option SummaryRec :=
  (st.summaries.find? (fun p => p.1 = d)).map (fun p => p.2)

/-- `Document.objects.get(id=d)`-style lookup of a document's text. -/
def findDoc (st : PipelineState) (d : Nat) : Option (List Char) :=
  (st.docs.find? (fun p => p.1 = d)).map (fun p => p.2)

/-- documents/views.py, DocumentViewSet.create, after successful extraction:
save the Document, then branch on `len(extracted) > AUTO_SUMMARY_MAX_CHAR`.
Large: create a pending Summary and enqueue one async job.  Small: generate
synchronously; on success create a complete Summary, on any exception create
a failed one.  Returns the new state and the HTTP status (always 201: the
document-creation call succeeds either way). -/
def submit (pl : List Char → Nat → Nat → Except (List Char) (List Char))
    (cfg : Config) (st : PipelineState) (extracted : List Char) :
    PipelineState × Nat :=
  let docId := st.nextId
  let st1 : PipelineState :=
    { st with nextId := st.nextId + 1, docs := st.docs ++ [(docId, extracted)] }
  if extracted.length > cfg.AUTO_SUMMARY_MAX_CHAR then
    ({ st1 with
        summaries := st1.summaries ++ [(docId, ⟨[], [], "pending"⟩)],
        queue := st1.queue ++ [docId] }, 201)
  else
    match generate_document_summaries pl cfg extracted with
    | .ok (short_s, detailed) =>
      ({ st1 with
          summaries := st1.summaries ++ [(docId, ⟨short_s, detailed, "complete"⟩)] }, 201)
    | .error e =>
      ({ st1 with
          summaries := st1.summaries ++
            [(docId, ⟨[], generationFailedMsg e, "failed"⟩)] }, 201)

/-- documents/views.py, DocumentViewSet.retry_summary: 404 when the document
or its Summary is missing, 400 when the Summary is not in status 'failed'
(no mutation in those cases); otherwise reset the Summary to pending with
both text fields cleared, enqueue one async job, and return 200. -/
def retry_summary (st : PipelineState) (docId : Nat) : PipelineState × Nat :=
  match st.docs.find? (fun p => p.1 = docId) with
  | none => (st, 404)
  | some _ =>
    match st.summaries.find? (fun p => p.1 = docId) with
    | none => (st, 404)
    | some (_, s) =>
      if s.status ≠ "failed" then (st, 400)
      else
        ({ st with
            summaries := updateSummary st.summaries docId ⟨[], [], "pending"⟩,
            queue := st.queue ++ [docId] }, 200)

/-- summarization/async_tasks.py, generate_document_summary_async: look up
the document and its Summary; only when the Summary exists with status
'pending' does the task claim it (status 'processing'), run the generator on
the document's text, and write the terminal state: 'complete' with both
fields on success, or — in the `except` handler — 'failed' with
detailed_notes set to the failure message and short_summary left at the
value it held when the exception was raised.  Every other case (missing
document, missing Summary, non-pending status) is a no-op. -/
def generate_document_summary_async
    (pl : List Char → Nat → Nat → Except (List Char) (List Char))
    (cfg : Config) (st : PipelineState) (docId : Nat) : PipelineState :=
  match st.docs.find? (fun p => p.1 = docId) with
  | none => st
  | some (_, text) =>
    match st.summaries.find? (fun p => p.1 = docId) with
    | none => st
    | some (_, s) =>
      if s.status = "pending" then
        match generate_document_summaries pl cfg text with
        | .ok (short_s, detailed) =>
          { st with summaries := updateSummary st.summaries docId ⟨short_s, detailed, "complete"⟩ }
        | .error e =>
          let failRec : SummaryRec :=
            ⟨s.short_summary, generationFailedMsg e, "failed"⟩
          { st with summaries := updateSummary st.summaries docId failRec }
      else st

/-- Number of Summary rows referencing a given document. -/
def countSummaries (st : PipelineState) (d : Nat) : Nat :=
  (st.summaries.filter (fun p => p.1 = d)).length

/-- Well-formedness of the auto-increment key: every existing document id and
summary document-reference is below nextId. -/
def WFState (st : PipelineState) : Prop :=
  (∀ p ∈ st.docs, p.1 < st.nextId) ∧ ∀ p ∈ st.summaries, p.1 < st.nextId

/-- The storage-level invariant of Summary.Meta
(UniqueConstraint(fields=['document'])): at most one Summary per Document. -/
def AtMostOneSummary (st : PipelineState) : Prop :=
  ∀ d, countSummaries st d ≤ 1

/-- Demo pipeline capability: always returns the summary text "s". -/
def plDemo : List Char → Nat → Nat → Except (List Char) (List Char) :=
  fun _ _ _ => .ok ('s' :: [])

/-- Demo pipeline capability that always raises with message "boom". -/
def plDemoFail : List Char → Nat → Nat → Except (List Char) (List Char) :=
  fun _ _ _ => .error ('b' :: 'o' :: 'o' :: 'm' :: [])

/-- Demo configuration with a small async threshold (2 characters). -/
def cfgDemo : Config := ⟨60000, 2, 60, 15, 180, 60⟩

/-- Empty initial persistent state. -/
def stEmpty : PipelineState := ⟨0, [], [], []⟩

theorem updateSummary_find?_self (l : List (Nat × SummaryRec)) (d : Nat) (r : SummaryRec)
    (h : (l.find? (fun p => p.1 = d)).isSome) :
    (updateSummary l d r).find? (fun p => p.1 = d) = some (d, r) := by
  induction l with
  | nil => simp [List.find?] at h
  | cons p rest ih =>
    by_cases hp : p.1 = d
    · simp [updateSummary, hp]
    · have h' : (rest.find? (fun p => p.1 = d)).isSome := by
        simpa [List.find?_cons, hp] using h
      simp [updateSummary, hp, ih h']

theorem updateSummary_filter_length (l : List (Nat × SummaryRec)) (d e : Nat) (r : SummaryRec) :
    ((updateSummary l d r).filter (fun p => p.1 = e)).length =
      (l.filter (fun p => p.1 = e)).length := by
  induction l with
  | nil => rfl
  | cons p rest ih =>
    by_cases hp : p.1 = d
    · by_cases he : d = e
      · simp [updateSummary, hp, List.filter_cons, he, hp.trans he]
      · have : ¬ (p.1 = e) := fun hc => he ((hp.symm.trans hc))
        simp [updateSummary, hp, List.filter_cons, he, this]
    · by_cases he : p.1 = e
      · have hed : ¬ (e = d) := fun hc => hp (he.trans hc)
        simp [updateSummary, hp, List.filter_cons, he, hed, ih]
      · simp [updateSummary, hp, List.filter_cons, he, ih]

/-- C7: for every reader output, extraction post-processing first strips
leading and trailing whitespace; stripped text at or below MAX_EXTRACT_CHAR
is returned unchanged, while longer text is cut to exactly MAX_EXTRACT_CHAR
characters, the result being the character-for-character identical initial
segment of the stripped text (hard cut). -/
theorem extract_text_post_truncates (cfg : Config) (raw : List Char) :
    ((pyStrip raw).length ≤ cfg.MAX_EXTRACT_CHAR →
      extract_text_post cfg raw = pyStrip raw) ∧
    (cfg.MAX_EXTRACT_CHAR < (pyStrip raw).length →
      extract_text_post cfg raw = (pyStrip raw).take cfg.MAX_EXTRACT_CHAR ∧
      (extract_text_post cfg raw).length = cfg.MAX_EXTRACT_CHAR ∧
      extract_text_post cfg raw ++ (pyStrip raw).drop cfg.MAX_EXTRACT_CHAR = pyStrip raw) := by
  constructor
  · intro h
    simp [extract_text_post, Nat.not_lt.2 h]
  · intro h
    refine ⟨by simp [extract_text_post, h], ?_, ?_⟩
    · simp [extract_text_post, h, List.length_take, Nat.min_eq_left (Nat.le_of_lt h)]
    · simp [extract_text_post, h, List.take_append_drop]

theorem extract_text_post_truncates_witness :
    extract_text_post ⟨2, 0, 0, 0, 0, 0⟩ (' ' :: 'a' :: 'b' :: 'c' :: 'd' :: ' ' :: []) =
      (pyStrip (' ' :: 'a' :: 'b' :: 'c' :: 'd' :: ' ' :: [])).take 2 ∧
    (extract_text_post ⟨2, 0, 0, 0, 0, 0⟩ (' ' :: 'a' :: 'b' :: 'c' :: 'd' :: ' ' :: [])).length = 2 :=
  ⟨((extract_text_post_truncates ⟨2, 0, 0, 0, 0, 0⟩ _).2 (by decide)).1,
   ((extract_text_post_truncates ⟨2, 0, 0, 0, 0, 0⟩ _).2 (by decide)).2.1⟩

/-- C8: input text that is empty after stripping makes summarize with mode
'both' return both fields as empty strings, with zero invocations of the
underlying summarization model. -/
theorem summarize_empty_input
    (pl : List Char → Nat → Nat → Except (List Char) (List Char))
    (cfg : Config) (text : List Char) (h : pyStrip text = []) :
    summarize pl cfg text "both" =
      .ok ({ short_summary := some [], detailed_notes := some [] }, 0) := by
  simp [summarize, h]

theorem summarize_empty_input_witness :
    summarize plDemo cfgDemo (' ' :: ' ' :: []) "both" =
      .ok ({ short_summary := some [], detailed_notes := some [] }, 0) :=
  summarize_empty_input plDemo cfgDemo (' ' :: ' ' :: []) (by decide)

/-- C10: for a mode outside short/detailed/both and input that is non-empty
after stripping, summarize returns a dictionary in which both keys are
absent (not empty strings), with zero invocations of the model. -/
theorem summarize_unknown_mode
    (pl : List Char → Nat → Nat → Except (List Char) (List Char))
    (cfg : Config) (text : List Char) (mode : String)
    (h1 : mode ≠ "short") (h2 : mode ≠ "detailed") (h3 : mode ≠ "both")
    (h4 : pyStrip text ≠ []) :
    summarize pl cfg text mode =
      .ok ({ short_summary := none, detailed_notes := none }, 0) := by
  simp [summarize, h1, h2, h3, h4]

theorem summarize_unknown_mode_witness :
    summarize plDemo cfgDemo ('a' :: []) "weird" =
      .ok ({ short_summary := none, detailed_notes := none }, 0) :=
  summarize_unknown_mode plDemo cfgDemo ('a' :: []) "weird"
    (by decide) (by decide) (by decide) (by decide)

/-- C1 counterexample: with AUTO_SUMMARY_MAX_CHAR = 2 the extracted text
"ab" has length 2, at (not above) the threshold, yet submit takes the
synchronous path: the Summary is created with status complete and the queue
stays empty, so "at or above the threshold ⇒ pending with one enqueued job"
is false at this input. -/
theorem submit_at_threshold_is_sync :
    ('a' :: 'b' :: []).length ≥ cfgDemo.AUTO_SUMMARY_MAX_CHAR ∧
    (submit plDemo cfgDemo stEmpty ('a' :: 'b' :: [])).1.summaries =
      [(0, ⟨'s' :: [], '-' :: ' ' :: 's' :: [], "complete"⟩)] ∧
    (submit plDemo cfgDemo stEmpty ('a' :: 'b' :: [])).1.queue = [] := by
  refine ⟨by decide, by decide, by decide⟩

/-- C1 (amended: the async path is taken for texts strictly longer than the
threshold): for every extracted text with length strictly above
AUTO_SUMMARY_MAX_CHAR, submit creates the Summary with status pending and
both text fields empty, and enqueues exactly one job for that document. -/
theorem submit_async_path
    (pl : List Char → Nat → Nat → Except (List Char) (List Char))
    (cfg : Config) (st : PipelineState) (x : List Char)
    (h : x.length > cfg.AUTO_SUMMARY_MAX_CHAR) :
    (submit pl cfg st x).1.summaries = st.summaries ++ [(st.nextId, ⟨[], [], "pending"⟩)] ∧
    (submit pl cfg st x).1.queue = st.queue ++ [st.nextId] ∧
    (submit pl cfg st x).2 = 201 := by
  refine ⟨?_, ?_, ?_⟩ <;> simp [submit, h]

theorem submit_async_path_witness :
    (submit plDemo cfgDemo stEmpty ('a' :: 'b' :: 'c' :: [])).1.summaries =
      stEmpty.summaries ++ [(stEmpty.nextId, ⟨[], [], "pending"⟩)] ∧
    (submit plDemo cfgDemo stEmpty ('a' :: 'b' :: 'c' :: [])).1.queue =
      stEmpty.queue ++ [stEmpty.nextId] ∧
    (submit plDemo cfgDemo stEmpty ('a' :: 'b' :: 'c' :: [])).2 = 201 :=
  submit_async_path plDemo cfgDemo stEmpty ('a' :: 'b' :: 'c' :: []) (by decide)

/-- C2: for every extracted text of length at most AUTO_SUMMARY_MAX_CHAR,
submit calls the Summarization Engine synchronously with mode 'both' and
creates the Summary directly in a terminal status — complete with the
generated fields when summarize succeeds, failed when it raises — and no
asynchronous job is enqueued. -/
theorem submit_sync_path
    (pl : List Char → Nat → Nat → Except (List Char) (List Char))
    (cfg : Config) (st : PipelineState) (x : List Char)
    (h : x.length ≤ cfg.AUTO_SUMMARY_MAX_CHAR) :
    (submit pl cfg st x).2 = 201 ∧
    (submit pl cfg st x).1.queue = st.queue ∧
    ((∃ r n, summarize pl cfg x "both" = .ok (r, n) ∧
        (submit pl cfg st x).1.summaries = st.summaries ++
          [(st.nextId, ⟨r.short_summary.getD [], r.detailed_notes.getD [], "complete"⟩)]) ∨
     (∃ e, summarize pl cfg x "both" = .error e ∧
        (submit pl cfg st x).1.summaries = st.summaries ++
          [(st.nextId, ⟨[], generationFailedMsg e, "failed"⟩)])) := by
  have hn : ¬ (x.length > cfg.AUTO_SUMMARY_MAX_CHAR) := Nat.not_lt.2 h
  cases hg : summarize pl cfg x "both" with
  | error e =>
    refine ⟨?_, ?_, Or.inr ⟨e, rfl, ?_⟩⟩ <;>
      simp [submit, generate_document_summaries, hn, hg]
  | ok p =>
    refine ⟨?_, ?_, Or.inl ⟨p.1, p.2, rfl, ?_⟩⟩ <;>
      simp [submit, generate_document_summaries, hn, hg]

theorem submit_sync_path_witness :
    (submit plDemo cfgDemo stEmpty ('a' :: 'b' :: [])).2 = 201 ∧
    (submit plDemo cfgDemo stEmpty ('a' :: 'b' :: [])).1.queue = stEmpty.queue :=
  ⟨(submit_sync_path plDemo cfgDemo stEmpty ('a' :: 'b' :: []) (by decide)).1,
   (submit_sync_path plDemo cfgDemo stEmpty ('a' :: 'b' :: []) (by decide)).2.1⟩

/-- C6: when synchronous generation fails, submit does not propagate the
exception: it still returns 201 and still creates the Document row, and the
Summary is created with status failed, empty short summary, and the failure
description in detailed_notes. -/
theorem submit_sync_failure_isolated
    (pl : List Char → Nat → Nat → Except (List Char) (List Char))
    (cfg : Config) (st : PipelineState) (x e : List Char)
    (h : x.length ≤ cfg.AUTO_SUMMARY_MAX_CHAR)
    (hg : generate_document_summaries pl cfg x = .error e) :
    (submit pl cfg st x).2 = 201 ∧
    (submit pl cfg st x).1.docs = st.docs ++ [(st.nextId, x)] ∧
    (submit pl cfg st x).1.summaries = st.summaries ++
      [(st.nextId, ⟨[], generationFailedMsg e, "failed"⟩)] := by
  have hn : ¬ (x.length > cfg.AUTO_SUMMARY_MAX_CHAR) := Nat.not_lt.2 h
  refine ⟨?_, ?_, ?_⟩ <;> simp [submit, hn, hg]

theorem submit_sync_failure_isolated_witness :
    (submit plDemoFail cfgDemo stEmpty ('a' :: 'b' :: [])).2 = 201 ∧
    (submit plDemoFail cfgDemo stEmpty ('a' :: 'b' :: [])).1.docs =
      stEmpty.docs ++ [(stEmpty.nextId, 'a' :: 'b' :: [])] ∧
    (submit plDemoFail cfgDemo stEmpty ('a' :: 'b' :: [])).1.summaries =
      stEmpty.summaries ++ [(stEmpty.nextId,
        ⟨[], generationFailedMsg ('b' :: 'o' :: 'o' :: 'm' :: []), "failed"⟩)] :=
  submit_sync_failure_isolated plDemoFail cfgDemo stEmpty ('a' :: 'b' :: [])
    ('b' :: 'o' :: 'o' :: 'm' :: []) (by decide) rfl

/-- C3: retry succeeds only when the document and its Summary exist and the
Summary's status is exactly 'failed': then the status becomes pending, both
text fields become empty, exactly one job is enqueued for the document, and
the call returns 200.  In every other case (status not 'failed', Summary
missing, document missing) the state is unchanged and an error code is
returned. -/
theorem retry_summary_semantics (st : PipelineState) (d : Nat) :
    (∀ t q, st.docs.find? (fun p => p.1 = d) = some t →
       st.summaries.find? (fun p => p.1 = d) = some q → q.2.status = "failed" →
       retry_summary st d =
         ({ st with summaries := updateSummary st.summaries d ⟨[], [], "pending"⟩,
                    queue := st.queue ++ [d] }, 200) ∧
       findSummary (retry_summary st d).1 d = some ⟨[], [], "pending"⟩) ∧
    (∀ q, st.summaries.find? (fun p => p.1 = d) = some q → q.2.status ≠ "failed" →
       (retry_summary st d).1 = st ∧ (retry_summary st d).2 ≠ 200) ∧
    (st.summaries.find? (fun p => p.1 = d) = none →
       (retry_summary st d).1 = st ∧ (retry_summary st d).2 ≠ 200) ∧
    (st.docs.find? (fun p => p.1 = d) = none →
       (retry_summary st d).1 = st ∧ (retry_summary st d).2 ≠ 200) := by
  refine ⟨?_, ?_, ?_, ?_⟩
  · intro t q hd hs hst
    obtain ⟨qa, qs⟩ := q
    have hst2 : qs.status = "failed" := hst
    have hsome : (st.summaries.find? (fun p => p.1 = d)).isSome := by rw [hs]; rfl
    have hfind := updateSummary_find?_self st.summaries d ⟨[], [], "pending"⟩ hsome
    constructor
    · simp [retry_summary, hd, hs, hst2]
    · simp [retry_summary, hd, hs, hst2, findSummary, hfind]
  · intro q hs hst
    obtain ⟨qa, qs⟩ := q
    have hst2 : qs.status ≠ "failed" := hst
    cases hd : st.docs.find? (fun p => p.1 = d) with
    | none => simp [retry_summary, hd]
    | some t => simp [retry_summary, hd, hs, hst2]
  · intro hs
    cases hd : st.docs.find? (fun p => p.1 = d) with
    | none => simp [retry_summary, hd]
    | some t => simp [retry_summary, hd, hs]
  · intro hd
    simp [retry_summary, hd]

/-- Demo state: one document with one failed Summary holding old text. -/
def stFailed : PipelineState :=
  ⟨1, [(0, 'x' :: [])], [(0, ⟨'u' :: [], 'v' :: [], "failed"⟩)], []⟩

theorem retry_summary_semantics_witness :
    retry_summary stFailed 0 =
      ({ stFailed with
          summaries := updateSummary stFailed.summaries 0 ⟨[], [], "pending"⟩,
          queue := stFailed.queue ++ [0] }, 200) ∧
    findSummary (retry_summary stFailed 0).1 0 = some ⟨[], [], "pending"⟩ :=
  (retry_summary_semantics stFailed 0).1 (0, 'x' :: []) (0, ⟨'u' :: [], 'v' :: [], "failed"⟩)
    rfl rfl rfl

/-- C9: when the async executor's generation step raises (after the pending
guard), the exception handler writes only the status (to 'failed') and the
detailed_notes field; short_summary keeps the value it held when the
exception was raised, and documents, queue and next id are untouched. -/
theorem async_failure_frame
    (pl : List Char → Nat → Nat → Except (List Char) (List Char))
    (cfg : Config) (st : PipelineState) (d : Nat)
    (t : Nat × List Char) (q : Nat × SummaryRec) (e : List Char)
    (hd : st.docs.find? (fun p => p.1 = d) = some t)
    (hs : st.summaries.find? (fun p => p.1 = d) = some q)
    (hst : q.2.status = "pending")
    (hg : generate_document_summaries pl cfg t.2 = .error e) :
    generate_document_summary_async pl cfg st d =
      { st with summaries := updateSummary st.summaries d ⟨q.2.short_summary, generationFailedMsg e, "failed"⟩ } ∧
    findSummary (generate_document_summary_async pl cfg st d) d =
      some ⟨q.2.short_summary, generationFailedMsg e, "failed"⟩ ∧
    (generate_document_summary_async pl cfg st d).docs = st.docs ∧
    (generate_document_summary_async pl cfg st d).queue = st.queue ∧
    (generate_document_summary_async pl cfg st d).nextId = st.nextId := by
  obtain ⟨ta, tt⟩ := t
  obtain ⟨qa, qs⟩ := q
  have hst2 : qs.status = "pending" := hst
  have hg2 : generate_document_summaries pl cfg tt = .error e := hg
  have hsome : (st.summaries.find? (fun p => p.1 = d)).isSome := by rw [hs]; rfl
  have hfind := updateSummary_find?_self st.summaries d
    ⟨qs.short_summary, generationFailedMsg e, "failed"⟩ hsome
  refine ⟨?_, ?_, ?_, ?_, ?_⟩ <;>
    simp [generate_document_summary_async, hd, hs, hst2, hg2, findSummary, hfind]

/-- Demo state: one document with one pending Summary holding old text in
short_summary. -/
def stPending : PipelineState :=
  ⟨1, [(0, 'x' :: [])], [(0, ⟨'u' :: [], [], "pending"⟩)], []⟩

theorem async_failure_frame_witness :
    findSummary (generate_document_summary_async plDemoFail cfgDemo stPending 0) 0 =
      some ⟨'u' :: [], generationFailedMsg ('b' :: 'o' :: 'o' :: 'm' :: []), "failed"⟩ :=
  (async_failure_frame plDemoFail cfgDemo stPending 0 (0, 'x' :: [])
    (0, ⟨'u' :: [], [], "pending"⟩) ('b' :: 'o' :: 'o' :: 'm' :: [])
    rfl rfl rfl rfl).2.1

/-- C4: the async executor is idempotent — when the Summary is missing or
its status is anything other than 'pending' the run leaves the state
unchanged, and running the executor a second time after any first run is
always a no-op. -/
theorem async_idempotent
    (pl : List Char → Nat → Nat → Except (List Char) (List Char))
    (cfg : Config) (st : PipelineState) (d : Nat) :
    ((∀ s, findSummary st d = some s → s.status ≠ "pending") →
       generate_document_summary_async pl cfg st d = st) ∧
    generate_document_summary_async pl cfg (generate_document_summary_async pl cfg st d) d =
      generate_document_summary_async pl cfg st d := by
  constructor
  · intro h
    cases hd : st.docs.find? (fun p => p.1 = d) with
    | none => simp [generate_document_summary_async, hd]
    | some t =>
      obtain ⟨ta, tt⟩ := t
      cases hs : st.summaries.find? (fun p => p.1 = d) with
      | none => simp [generate_document_summary_async, hd, hs]
      | some q =>
        obtain ⟨qa, qs⟩ := q
        have hns := h qs (by simp [findSummary, hs])
        simp [generate_document_summary_async, hd, hs, hns]
  · cases hd : st.docs.find? (fun p => p.1 = d) with
    | none => simp [generate_document_summary_async, hd]
    | some t =>
      obtain ⟨ta, tt⟩ := t
      cases hs : st.summaries.find? (fun p => p.1 = d) with
      | none => simp [generate_document_summary_async, hd, hs]
      | some q =>
        obtain ⟨qa, qs⟩ := q
        by_cases hp : qs.status = "pending"
        · have hsome : (st.summaries.find? (fun p => p.1 = d)).isSome := by rw [hs]; rfl
          cases hg : generate_document_summaries pl cfg tt with
          | ok pr =>
            obtain ⟨sh, de⟩ := pr
            have hfind := updateSummary_find?_self st.summaries d ⟨sh, de, "complete"⟩ hsome
            simp [generate_document_summary_async, hd, hs, hp, hg, hfind]
          | error e =>
            have hfind := updateSummary_find?_self st.summaries d
              ⟨qs.short_summary, generationFailedMsg e, "failed"⟩ hsome
            simp [generate_document_summary_async, hd, hs, hp, hg, hfind]
        · simp [generate_document_summary_async, hd, hs, hp]

/-- Demo state: one document with one complete Summary. -/
def stComplete : PipelineState :=
  ⟨1, [(0, 'x' :: [])], [(0, ⟨'u' :: [], 'v' :: [], "complete"⟩)], []⟩

theorem async_idempotent_witness :
    generate_document_summary_async plDemo cfgDemo stComplete 0 = stComplete :=
  (async_idempotent plDemo cfgDemo stComplete 0).1 (by
    intro s hs
    have h2 : (⟨'u' :: [], 'v' :: [], "complete"⟩ : SummaryRec) = s := by injection hs
    rw [← h2]
    decide)

theorem filter_key_append_single (l : List (Nat × SummaryRec)) (a e : Nat) (r : SummaryRec) :
    ((l ++ [(a, r)]).filter (fun p => p.1 = e)).length =
      (l.filter (fun p => p.1 = e)).length + (if a = e then 1 else 0) := by
  by_cases h : a = e <;> simp [List.filter_append, List.filter_cons, h]

theorem filter_key_nil_of_fresh (l : List (Nat × SummaryRec)) (n : Nat)
    (h : ∀ p ∈ l, p.1 < n) : l.filter (fun p => p.1 = n) = [] := by
  rw [List.filter_eq_nil_iff]
  intro p hp
  simp only [decide_eq_true_eq]
  exact Nat.ne_of_lt (h p hp)

/-- C5: at most one Summary per Document.  Submitting on a well-formed state
creates exactly one Summary for the fresh document, keeps the state
well-formed and preserves the uniqueness invariant; retry and the async
executor never change the number of Summary rows of any document (they
mutate in place, never create). -/
theorem one_summary_per_document
    (pl : List Char → Nat → Nat → Except (List Char) (List Char))
    (cfg : Config) (st : PipelineState) (x : List Char) (d e : Nat) :
    (WFState st →
       countSummaries (submit pl cfg st x).1 st.nextId = 1 ∧
       WFState (submit pl cfg st x).1 ∧
       (AtMostOneSummary st → AtMostOneSummary (submit pl cfg st x).1)) ∧
    countSummaries (retry_summary st d).1 e = countSummaries st e ∧
    countSummaries (generate_document_summary_async pl cfg st d) e = countSummaries st e := by
  refine ⟨?_, ?_, ?_⟩
  · intro hwf
    have hnil : st.summaries.filter (fun p => p.1 = st.nextId) = [] :=
      filter_key_nil_of_fresh st.summaries st.nextId hwf.2
    have key : ∃ r, (submit pl cfg st x).1.summaries = st.summaries ++ [(st.nextId, r)] ∧
        (submit pl cfg st x).1.docs = st.docs ++ [(st.nextId, x)] ∧
        (submit pl cfg st x).1.nextId = st.nextId + 1 := by
      by_cases hlen : x.length > cfg.AUTO_SUMMARY_MAX_CHAR
      · exact ⟨⟨[], [], "pending"⟩, by simp [submit, hlen], by simp [submit, hlen],
          by simp [submit, hlen]⟩
      · cases hg : generate_document_summaries pl cfg x with
        | ok pr => exact ⟨⟨pr.1, pr.2, "complete"⟩, by simp [submit, hlen, hg],
            by simp [submit, hlen, hg], by simp [submit, hlen, hg]⟩
        | error er => exact ⟨⟨[], generationFailedMsg er, "failed"⟩,
            by simp [submit, hlen, hg], by simp [submit, hlen, hg], by simp [submit, hlen, hg]⟩
    obtain ⟨r, hsum, hdocs, hnext⟩ := key
    refine ⟨?_, ⟨?_, ?_⟩, ?_⟩
    · rw [countSummaries, hsum, filter_key_append_single, hnil]
      simp
    · intro p hp
      rw [hdocs] at hp
      rw [hnext]
      rcases List.mem_append.1 hp with h | h
      · exact Nat.lt_trans (hwf.1 p h) (Nat.lt_succ_self _)
      · have : p = (st.nextId, x) := by simpa using h
        rw [this]
        exact Nat.lt_succ_self _
    · intro p hp
      rw [hsum] at hp
      rw [hnext]
      rcases List.mem_append.1 hp with h | h
      · exact Nat.lt_trans (hwf.2 p h) (Nat.lt_succ_self _)
      · have : p = (st.nextId, r) := by simpa using h
        rw [this]
        exact Nat.lt_succ_self _
    · intro hone f
      rw [countSummaries, hsum, filter_key_append_single]
      by_cases hf : st.nextId = f
      · rw [← hf, hnil]
        simp
      · simpa [hf] using hone f
  · cases hd : st.docs.find? (fun p => p.1 = d) with
    | none => simp [retry_summary, hd]
    | some t =>
      cases hs : st.summaries.find? (fun p => p.1 = d) with
      | none => simp [retry_summary, hd, hs]
      | some q =>
        obtain ⟨qa, qs⟩ := q
        by_cases hst : qs.status = "failed"
        · simp [retry_summary, hd, hs, hst, countSummaries, updateSummary_filter_length]
        · simp [retry_summary, hd, hs, hst]
  · cases hd : st.docs.find? (fun p => p.1 = d) with
    | none => simp [generate_document_summary_async, hd]
    | some t =>
      obtain ⟨ta, tt⟩ := t
      cases hs : st.summaries.find? (fun p => p.1 = d) with
      | none => simp [generate_document_summary_async, hd, hs]
      | some q =>
        obtain ⟨qa, qs⟩ := q
        by_cases hst : qs.status = "pending"
        · cases hg : generate_document_summaries pl cfg tt with
          | ok pr => simp [generate_document_summary_async, hd, hs, hst, hg,
              countSummaries, updateSummary_filter_length]
          | error er => simp [generate_document_summary_async, hd, hs, hst, hg,
              countSummaries, updateSummary_filter_length]
        · simp [generate_document_summary_async, hd, hs, hst]

theorem one_summary_per_document_witness :
    countSummaries (submit plDemo cfgDemo stEmpty ('a' :: 'b' :: [])).1 stEmpty.nextId = 1 ∧
    countSummaries (retry_summary stFailed 0).1 0 = countSummaries stFailed 0 :=
  ⟨((one_summary_per_document plDemo cfgDemo stEmpty ('a' :: 'b' :: []) 0 0).1
      ⟨by simp [stEmpty], by simp [stEmpty]⟩).1,
   (one_summary_per_document plDemo cfgDemo stFailed ('a' :: []) 0 0).2.1⟩

end DocumentMind
